import Mathlib

/-!
Verification development for the Kineto profiler session core
(torch/csrc/autograd/profiler_kineto.cpp).

The C++ code is shallowly embedded: each definition below translates
the corresponding C++ function or data structure.  Ambient effects
(current time, thread ids, the external trace collector, the global
correlation counter, the per-context thread-local debug-info slot)
are made explicit as parameters and returned values.  Machine
integers: the process-wide correlation counter is a uint64
(explicit mod 2 ^ 64); other integer fields never overflow in the
properties considered and are modelled as Nat / Int.
-/

namespace Kineto

/-- Activity kinds of the external trace collector
(libkineto::ActivityType), as listed in prepareProfiler and
KinetoEvent::deviceType. -/
inductive LKActivityType where
  | CPU_OP
  | EXTERNAL_CORRELATION
  | CUDA_RUNTIME
  | GPU_MEMCPY
  | GPU_MEMSET
  | CONCURRENT_KERNEL
deriving DecidableEq, Repr

/-- Profiler session kinds (ProfilerState). -/
inductive ProfilerState where
  | Disabled
  | CPU
  | CUDA
  | NVTX
  | KINETO
deriving DecidableEq, Repr

/-- Requested activity kinds of the torch-level API (ActivityType). -/
inductive ActivityType where
  | CPU
  | CUDA
deriving DecidableEq, Repr

/-- Session configuration (ProfilerConfig): immutable after session
start. -/
structure ProfilerConfig where
  state : ProfilerState
  report_input_shapes : Bool := false
  profile_memory : Bool := false
  with_stack : Bool := false
  with_flops : Bool := false
deriving DecidableEq, Repr

/-- Scopes of an instrumented operation (at::RecordScope).
Modelled from the spec: only the distinction of the backward-function
scope from the others is used by the code under study. -/
inductive RecordScope where
  | FUNCTION
  | BACKWARD_FUNCTION
  | TORCHSCRIPT_FUNCTION
  | USER_SCOPE
deriving DecidableEq, Repr

/-- Numeric tag of a scope, as stored by the cast to uint8 in the
start callback. -/
def RecordScope.toNat : RecordScope → Nat
  | .FUNCTION => 0
  | .BACKWARD_FUNCTION => 1
  | .TORCHSCRIPT_FUNCTION => 2
  | .USER_SCOPE => 3

/-- One activity record of the trace collector.  This unifies the
client-side activity filled by reportClientActivity (fields name,
activityType, startTime, endTime, device, correlation, sysThreadId,
metadata) with the read-only TraceActivity interface consumed by
KinetoEvent::activity.  Modelled from the spec where the interface is
external: timestamp is the start time, duration is end minus start,
deviceId is the device, resourceId is the system thread id, and the
optional linked activity is represented by the correlation id it
carries. -/
structure TraceActivity where
  name : String := ""
  activityType : LKActivityType := .CPU_OP
  startTime : Int := 0
  endTime : Int := 0
  device : Int := 0
  correlation : Nat := 0
  sysThreadId : Nat := 0
  linkedCorrelation : Option Nat := none
  metadata : List (String × String) := []
deriving DecidableEq, Repr

/-- TraceActivity::timestamp of the collector interface. -/
def TraceActivity.timestamp (a : TraceActivity) : Int := a.startTime

/-- TraceActivity::duration of the collector interface. -/
def TraceActivity.duration (a : TraceActivity) : Int := a.endTime - a.startTime

/-- TraceActivity::deviceId of the collector interface. -/
def TraceActivity.deviceId (a : TraceActivity) : Int := a.device

/-- TraceActivity::resourceId of the collector interface. -/
def TraceActivity.resourceId (a : TraceActivity) : Nat := a.sysThreadId

/-- addMetadata of a client activity: appends one key-value pair.
Modelled from the spec: the collector stores attached metadata
strings with the activity. -/
def TraceActivity.addMetadata (a : TraceActivity) (key value : String) : TraceActivity :=
  { a with metadata := a.metadata ++ [(key, value)] }

/-- Persisted captured event (KinetoEvent).  Fields mirror the ones
assigned in profiler_kineto.cpp; optional fields are unset on the
default-constructed event (the KinetoEvent constructor only sets the
activity kind tag to CPU_OP).  Whether the correlation id was ever
assigned is modelled with Option. -/
structure KinetoEvent where
  name : String := ""
  device_index : Int := 0
  device_resource_id : Nat := 0
  start_us : Int := 0
  duration_us : Int := 0
  correlation_id : Option Nat := none
  activity_type : LKActivityType := .CPU_OP
  linked_correlation_id : Option Nat := none
  startThreadId : Nat := 0
  endThreadId : Nat := 0
  sequenceNr : Int := -1
  fwdThreadId : Nat := 0
  scope : Nat := 0
  isAsync : Bool := false
  shapes : Option (List (List Int)) := none
  dtypes : Option (List String) := none
  stack : Option (List String) := none
  flops : Option Nat := none
deriving DecidableEq, Repr

/-- KinetoEvent::hasShapes. -/
def KinetoEvent.hasShapes (e : KinetoEvent) : Bool := e.shapes.isSome

/-- KinetoEvent::hasStack. -/
def KinetoEvent.hasStack (e : KinetoEvent) : Bool := e.stack.isSome

/-- KinetoEvent::hasTypes. -/
def KinetoEvent.hasTypes (e : KinetoEvent) : Bool := e.dtypes.isSome

/-- KinetoEvent::activity: copies the fields of a collector activity
into the event; the correlation id is assigned only for CPU_OP
activities, and the linked correlation id only when the activity has
a linked activity. -/
def KinetoEvent.activity (e : KinetoEvent) (a : TraceActivity) : KinetoEvent :=
  let e := { e with
    name := a.name
    device_index := a.deviceId
    device_resource_id := a.resourceId
    start_us := a.timestamp
    duration_us := a.duration }
  let e :=
    if a.activityType = LKActivityType.CPU_OP then
      { e with correlation_id := some a.correlation }
    else e
  let e := { e with activity_type := a.activityType }
  match a.linkedCorrelation with
  | some l => { e with linked_correlation_id := some l }
  | none => e

/-- shapesToStr: serializes input shapes, comma-space separated,
each dimension list bracketed, the whole bracketed. -/
def shapesToStr (shapes : List (List Int)) : String :=
  "[" ++ String.intercalate ", "
    (shapes.map (fun dims => "[" ++ String.intercalate ", " (dims.map toString) ++ "]"))
  ++ "]"

/-- dtypesToStr: empty list serializes to a pair of brackets;
otherwise each type name is quoted and suffixed with comma-space,
the two trailing characters are erased, and the result bracketed. -/
def dtypesToStr (types : List String) : String :=
  if types.isEmpty then "[]"
  else
    let rc := String.join (types.map (fun s => "\"" ++ s ++ "\", "))
    "[" ++ rc.dropRight 2 ++ "]"

/-- The intermediate string built by stacksToStr before the trailing
separator is removed: every stack entry suffixed with a semicolon,
concatenated in order (the std::copy with an ostream iterator). -/
def stacksRc : List String → String
  | [] => ""
  | s :: rest => s ++ ";" ++ stacksRc rest

/-- std::string::pop_back: undefined behaviour (modelled as none) on
the empty string, otherwise removes the last character. -/
def popBack (s : String) : Option String :=
  if s = "" then none else some (s.dropRight 1)

/-- stacksToStr with the undefinedness of the final pop_back made
explicit: none exactly when the pop_back would be undefined. -/
def stacksToStrChecked (sts : List String) : Option String :=
  popBack (stacksRc sts)

/-- stacksToStr as executed on defined inputs; on the (unreachable,
undefined) empty input it is refined to the empty string. -/
def stacksToStr (sts : List String) : String :=
  (stacksToStrChecked sts).getD ""

/-- next_correlation_id: reads the process-wide uint64 counter and
post-increments it (wrapping at 2 ^ 64); returns the value read
together with the new counter. -/
def next_correlation_id (corr_id : Nat) : Nat × Nat :=
  (corr_id, (corr_id + 1) % 2 ^ 64)

/-- Initial value of the correlation counter. -/
def corrIdInit : Nat := 1

/-- Counter value after n calls of next_correlation_id, starting
from the initial value 1. -/
def corrStateAfter : Nat → Nat
  | 0 => corrIdInit
  | n + 1 => (next_correlation_id (corrStateAfter n)).2

/-- Value returned by the call of next_correlation_id with index n
(zero-based issuance order). -/
def corrValue (n : Nat) : Nat := (next_correlation_id (corrStateAfter n)).1

/-- Per-operation transient context (KinetoObserverContext), created
by the start callback and consumed by the end callback.  The
default-constructed value is the minimal no-op sentinel returned on
the disabled path of the start callback. -/
structure KinetoObserverContext where
  startUs : Int := 0
  correlationId : Nat := 0
  startThreadId : Nat := 0
  endThreadId : Nat := 0
  sequenceNr : Int := -1
  fwdThreadId : Nat := 0
  recFunScope : Nat := 0
  shapes : Option (List (List Int)) := none
  dtypes : Option (List String) := none
  stack : Option (List String) := none
  extraArgs : Option (List (String × Int)) := none
deriving DecidableEq, Repr

/-- Descriptor of one instrumented operation as exposed by the
instrumentation hook registry (at::RecordFunction), restricted to
the accessors the code under study reads.  Input shapes, input type
names and extra arguments stand for the values the external
describers inputSizes, inputTypes and saveExtraArgs would supply. -/
structure RecordFunctionDesc where
  name : String := ""
  isAsync : Bool := false
  seqNr : Int := -1
  forwardThreadId : Nat := 0
  scope : RecordScope := .FUNCTION
  inputShapes : List (List Int) := []
  inputTypes : List String := []
  extraArgs : List (String × Int) := []
deriving DecidableEq, Repr

/-- Per-context profiling state (KinetoThreadLocalState): session
config, the captured-event sequence, the CpuTraceBuffer activity
list with its span timestamps, the installed-callback flag and the
legacy marker events recorded by mark. -/
structure KinetoThreadLocalState where
  config : ProfilerConfig
  kineto_events : List KinetoEvent := []
  cpu_trace : List TraceActivity := []
  spanStartTime : Int := 0
  spanEndTime : Int := 0
  callbackInstalled : Bool := false
  markers : List String := []
deriving DecidableEq, Repr

/-- KinetoThreadLocalState::reportClientActivity: on a null context
pointer, returns with no change; otherwise builds the client
activity record, builds the captured event from it (conditionally
storing shapes, input types, call stack and derived flops, each only
when present and non-empty), and appends the event and the activity
to the event sequence and the CpuTraceBuffer.  The external flops
computation (computeFlops) and the current time and cached system
thread id are passed in explicitly. -/
def KinetoThreadLocalState.reportClientActivity
    (s : KinetoThreadLocalState) (flopsFn : String → List (String × Int) → Nat)
    (fn : RecordFunctionDesc) (ctx? : Option KinetoObserverContext)
    (now : Int) (tid : Nat) : KinetoThreadLocalState :=
  match ctx? with
  | none => s
  | some ctx =>
    let op : TraceActivity := {
      name := fn.name
      activityType := .CPU_OP
      startTime := ctx.startUs
      endTime := now
      device := 0
      correlation := ctx.correlationId
      sysThreadId := tid }
    let e := (({} : KinetoEvent).activity op)
    let e := { e with
      startThreadId := ctx.startThreadId
      endThreadId := ctx.endThreadId
      sequenceNr := ctx.sequenceNr
      fwdThreadId := ctx.fwdThreadId
      scope := ctx.recFunScope
      isAsync := fn.isAsync }
    let e := { e with
      shapes := match ctx.shapes with
        | some sh => if !sh.isEmpty then some sh else e.shapes
        | none => e.shapes
      dtypes := match ctx.dtypes with
        | some d => if !d.isEmpty then some d else e.dtypes
        | none => e.dtypes
      stack := match ctx.stack with
        | some st => if !st.isEmpty then some st else e.stack
        | none => e.stack
      flops := match ctx.extraArgs with
        | some ea => if !ea.isEmpty then some (flopsFn fn.name ea) else e.flops
        | none => e.flops }
    { s with
      kineto_events := s.kineto_events ++ [e]
      cpu_trace := s.cpu_trace ++ [op] }

/-- The loop body of KinetoThreadLocalState::addTraceEvents: walks
the externally finalized activities in order, appending a fresh
captured event for each activity that is not of CPU_OP kind. -/
def addTraceEventsLoop (acc : List KinetoEvent) : List TraceActivity → List KinetoEvent
  | [] => acc
  | a :: rest =>
    if a.activityType ≠ LKActivityType.CPU_OP then
      addTraceEventsLoop (acc ++ [({} : KinetoEvent).activity a]) rest
    else
      addTraceEventsLoop acc rest

/-- KinetoThreadLocalState::addTraceEvents. -/
def KinetoThreadLocalState.addTraceEvents
    (s : KinetoThreadLocalState) (trace : List TraceActivity) : KinetoThreadLocalState :=
  { s with kineto_events := addTraceEventsLoop s.kineto_events trace }

/-- Body of the finalizeCPUTrace loop for one paired (event,
activity): attaches the serialized shapes, call stack and input
types when the event stores them, and the forward thread id and
sequence number when the sequence number is non-negative. -/
def enrichActivity (e : KinetoEvent) (a : TraceActivity) : TraceActivity :=
  let a := if e.hasShapes then
      a.addMetadata "Input Dims" (shapesToStr (e.shapes.getD []))
    else a
  let a := if e.hasStack then
      a.addMetadata "Call stack" (stacksToStr (e.stack.getD []))
    else a
  let a := if e.hasTypes then
      a.addMetadata "Input type" (dtypesToStr (e.dtypes.getD []))
    else a
  if e.sequenceNr ≥ 0 then
    (a.addMetadata "Fwd thread id" (toString e.fwdThreadId)).addMetadata
      "Sequence number" (toString e.sequenceNr)
  else a

/-- KinetoThreadLocalState::finalizeCPUTrace: the fatal internal
assertion that the activity count equals the event count is modelled
as none; otherwise every activity is enriched from the event at the
same index. -/
def KinetoThreadLocalState.finalizeCPUTrace
    (s : KinetoThreadLocalState) : Option KinetoThreadLocalState :=
  if s.cpu_trace.length = s.kineto_events.length then
    some { s with cpu_trace := List.zipWith enrichActivity s.kineto_events s.cpu_trace }
  else
    none

/-- Checked failures of the session API.  Each constructor stands
for one TORCH_CHECK (or, for assertCountMismatch, one fatal
TORCH_INTERNAL_ASSERT) of the source. -/
inductive UsageError where
  | wrongState
  | emptyActivities
  | alreadyEnabled
  | notRunning
  | assertCountMismatch
  | noTrace
  | alreadySaved
deriving DecidableEq, Repr

/-- Final output (ProfilerResult): captured events, the finalized
collector trace content, and the save-once flag (false on
construction). -/
structure ProfilerResult where
  events : List KinetoEvent := []
  trace : List TraceActivity := []
  saved : Bool := false
deriving DecidableEq, Repr

/-- ProfilerResult::save: fails when already saved, leaving the
result and the file system untouched; otherwise writes the trace to
the path and marks the result saved.  The file system is modelled as
the list of performed writes. -/
def ProfilerResult.save (r : ProfilerResult)
    (fs : List (String × List TraceActivity)) (path : String) :
    Except UsageError Unit × ProfilerResult × List (String × List TraceActivity) :=
  if r.saved then
    (.error .alreadySaved, r, fs)
  else
    (.ok (), { r with saved := true }, fs ++ [(path, r.trace)])

/-- The map of per-context thread-local debug-info slots of kind
PROFILER_STATE, one per logical execution context.  Modelled from
the spec: exactly one profiling state may be installed per context;
the slot is empty otherwise. -/
abbrev ContextMap : Type := Nat → Option KinetoThreadLocalState

/-- The start callback installed by pushProfilingCallbacks.  When no
profiling state is active on the context, or the active state is not
of KINETO kind, it returns the default-constructed no-op context and
leaves the correlation counter and the collector correlation stack
untouched.  Otherwise it draws a correlation id, pushes it on the
collector correlation stack and fills the operation context from the
descriptor and the config flags.  The ambient inputs (current time,
current thread id, the two callstack providers) are explicit. -/
def startCallback (state? : Option KinetoThreadLocalState)
    (fn : RecordFunctionDesc) (corrCounter : Nat) (now : Int)
    (currentThreadId : Nat) (jitCallstack pyCallstack : List String)
    (corrStack : List Nat) :
    KinetoObserverContext × Nat × List Nat :=
  match state? with
  | none => ({}, corrCounter, corrStack)
  | some s =>
    if s.config.state = ProfilerState.KINETO then
      let r := next_correlation_id corrCounter
      let cs := if jitCallstack.isEmpty then pyCallstack else jitCallstack
      let ctx : KinetoObserverContext := {
        startUs := now
        correlationId := r.1
        startThreadId := currentThreadId
        shapes := if s.config.report_input_shapes then some fn.inputShapes else none
        dtypes := if s.config.report_input_shapes then some fn.inputTypes else none
        extraArgs := if s.config.with_flops then some fn.extraArgs else none
        sequenceNr := fn.seqNr
        fwdThreadId := fn.forwardThreadId
        recFunScope := fn.scope.toNat
        stack := if s.config.with_stack ∧ fn.scope ≠ RecordScope.BACKWARD_FUNCTION then
            some cs
          else none }
      (ctx, r.2, r.1 :: corrStack)
    else
      ({}, corrCounter, corrStack)

/-- The end callback installed by pushProfilingCallbacks.  When no
profiling state is active on the context, or the active state is not
of KINETO kind, it returns with no change.  Otherwise it stamps the
ending thread id into the context, reports the client activity to
the state, and pops the collector correlation stack. -/
def endCallback (state? : Option KinetoThreadLocalState)
    (flopsFn : String → List (String × Int) → Nat)
    (fn : RecordFunctionDesc) (ctx : KinetoObserverContext)
    (now : Int) (tid : Nat) (currentThreadId : Nat)
    (corrStack : List Nat) :
    Option KinetoThreadLocalState × List Nat :=
  match state? with
  | none => (none, corrStack)
  | some s =>
    if s.config.state = ProfilerState.KINETO then
      let ctx := { ctx with endThreadId := currentThreadId }
      (some (s.reportClientActivity flopsFn fn (some ctx) now tid), corrStack.tail)
    else
      (some s, corrStack)

/-- enableProfiler: checks, in order, that the config selects the
KINETO state, that the requested activity set is non-empty, and that
no profiling state is installed on the calling context; only then
builds the fresh state (span start stamped, callbacks installed only
when CPU activities were requested, the synthetic start marker
recorded) and publishes it in the context slot. -/
def enableProfiler (config : ProfilerConfig) (activities : List ActivityType)
    (c : Nat) (m : ContextMap) (now : Int) :
    Except UsageError Unit × ContextMap :=
  if config.state ≠ ProfilerState.KINETO then
    (.error .wrongState, m)
  else if activities.isEmpty then
    (.error .emptyActivities, m)
  else
    match m c with
    | some _ => (.error .alreadyEnabled, m)
    | none =>
      let st : KinetoThreadLocalState := {
        config := config
        spanStartTime := now
        callbackInstalled := activities.contains ActivityType.CPU
        markers := ["__start_profile"] }
      (.ok (), fun i => if i = c then some st else m i)

/-- disableProfiler: pops the context slot first (the thread-local
debug-info pop; modelled from the spec: the pop removes whatever
state the slot holds), then checks that a state was installed and
that it is of KINETO kind; on success records the stop marker,
stamps the span end time, finalizes the CPU trace (fatal on count
mismatch), requires the collector to return a finalized trace,
imports its non-CPU_OP activities and packages the result.  The
collector trace returned by stopTrace is an explicit input. -/
def disableProfiler (c : Nat) (m : ContextMap) (now : Int)
    (collectorTrace : Option (List TraceActivity)) :
    Except UsageError ProfilerResult × ContextMap :=
  let st? := m c
  let m2 : ContextMap := fun i => if i = c then none else m i
  match st? with
  | none => (.error .notRunning, m2)
  | some s =>
    if s.config.state = ProfilerState.KINETO then
      let s := { s with markers := s.markers ++ ["__stop_profile"], spanEndTime := now }
      match s.finalizeCPUTrace with
      | none => (.error .assertCountMismatch, m2)
      | some s2 =>
        match collectorTrace with
        | none => (.error .noTrace, m2)
        | some tr =>
          (.ok { events := (s2.addTraceEvents tr).kineto_events, trace := tr }, m2)
    else
      (.error .notRunning, m2)

/-- The constant flops computation used for concrete instances. -/
def flopsZero : String → List (String × Int) → Nat := fun _ _ => 0

/-- A per-context state of KINETO kind with empty buffers. -/
def stateKineto : KinetoThreadLocalState := { config := { state := ProfilerState.KINETO } }

/-- A per-context state of legacy (CPU) kind, as the legacy profiler
installs in the same debug-info slot. -/
def stateCPU : KinetoThreadLocalState := { config := { state := ProfilerState.CPU } }

/-- A context map with no installed state. -/
def emptyContexts : ContextMap := fun _ => none

/-- A context map holding the legacy-kind state on context 0. -/
def mapWithCPUState : ContextMap := fun i => if i = 0 then some stateCPU else none

/-- Characterization of the addTraceEvents loop: it appends, to the
accumulated events and in trace order, one fresh event per non-CPU_OP
activity. -/
theorem addTraceEventsLoop_eq (trace : List TraceActivity) : ∀ acc : List KinetoEvent,
    addTraceEventsLoop acc trace =
      acc ++ (trace.filter (fun a => a.activityType ≠ LKActivityType.CPU_OP)).map
        (fun a => ({} : KinetoEvent).activity a) := by
  induction trace with
  | nil => intro acc; simp [addTraceEventsLoop]
  | cons a rest ih =>
    intro acc
    by_cases h : a.activityType = LKActivityType.CPU_OP
    · simp [addTraceEventsLoop, h, ih]
    · simp [addTraceEventsLoop, h, ih]

/-- C9: the metadata serializers are pure functions with these exact
outputs: shapesToStr on the shapes [[2, 3], [4]] gives the string
"[[2, 3], [4]]", dtypesToStr on the type names float and int gives
the bracketed quoted list, and dtypesToStr on the empty list gives a
pair of brackets. -/
theorem serializers_round_trip :
    shapesToStr [[2, 3], [4]] = "[[2, 3], [4]]"
    ∧ dtypesToStr ["float", "int"] = "[\"float\", \"int\"]"
    ∧ dtypesToStr [] = "[]" := by
  refine ⟨by decide, by decide, by decide⟩

/-- C5: assigning an activity into a fresh captured event via
KinetoEvent::activity sets the correlation id exactly when the
activity kind is CPU_OP (never for externally-sourced kinds), copies
the activity kind tag, and sets the linked correlation id exactly
when the source activity carries a linked activity, to the
correlation id of that linked activity; hence an externally-reported
accelerator activity carrying the correlation id of a CPU operation
as its link ends up linked to that operation. -/
theorem activity_assignment_correlation (a : TraceActivity) :
    (({} : KinetoEvent).activity a).correlation_id =
      (if a.activityType = LKActivityType.CPU_OP then some a.correlation else none)
    ∧ (({} : KinetoEvent).activity a).linked_correlation_id = a.linkedCorrelation
    ∧ (({} : KinetoEvent).activity a).activity_type = a.activityType := by
  by_cases hc : a.activityType = LKActivityType.CPU_OP <;>
    cases hl : a.linkedCorrelation <;>
      simp [KinetoEvent.activity, hc, hl]

/-- C6: addTraceEvents appends to the event sequence exactly the
externally finalized activities that are not of CPU_OP kind, in
trace order, skipping every CPU_OP activity; the events already in
the sequence and the rest of the state are left unchanged. -/
theorem addTraceEvents_appends_non_cpu_ops
    (s : KinetoThreadLocalState) (trace : List TraceActivity) :
    (s.addTraceEvents trace).kineto_events =
      s.kineto_events ++ (trace.filter (fun a => a.activityType ≠ LKActivityType.CPU_OP)).map
        (fun a => ({} : KinetoEvent).activity a)
    ∧ (s.addTraceEvents trace).kineto_events.take s.kineto_events.length = s.kineto_events
    ∧ (s.addTraceEvents trace).cpu_trace = s.cpu_trace
    ∧ (s.addTraceEvents trace).config = s.config
    ∧ (s.addTraceEvents trace).markers = s.markers := by
  refine ⟨?_, ?_, rfl, rfl, rfl⟩
  · exact addTraceEventsLoop_eq trace s.kineto_events
  · rw [show (s.addTraceEvents trace).kineto_events =
        addTraceEventsLoop s.kineto_events trace from rfl,
      addTraceEventsLoop_eq trace s.kineto_events]
    exact List.take_left _ _

/-- C3 counterexample: with a KINETO-kind state active on the
context, the end callback given exactly the no-op sentinel context
produced by the disabled path of the start callback (the
default-constructed operation context) does record an event, does
append to the CpuTraceBuffer, and does pop the collector correlation
stack, so the claimed side-effect-free return fails. -/
theorem endCallback_records_for_noop_sentinel :
    (startCallback none {} 5 0 0 [] [] []).1 = ({} : KinetoObserverContext)
    ∧ ((endCallback (some stateKineto) flopsZero {} ({} : KinetoObserverContext) 0 0 0 [7]).1.map
        (fun s => (s.kineto_events.length, s.cpu_trace.length)) = some (1, 1))
    ∧ (endCallback (some stateKineto) flopsZero {} ({} : KinetoObserverContext) 0 0 0 [7]).2 = [] := by
  refine ⟨rfl, by decide, by decide⟩

/-- C3 (amended): for every invocation of the end callback in which
there is no active per-context profiling state, or the active state
is not of KINETO kind, the callback returns immediately with no side
effects (no event recorded, no buffer append, no correlation pop).
The callback does not inspect the operation context, so the no-op
sentinel does not by itself suppress recording when a KINETO state
is active. -/
theorem endCallback_noop_without_kineto_state
    (state? : Option KinetoThreadLocalState)
    (flopsFn : String → List (String × Int) → Nat)
    (fn : RecordFunctionDesc) (ctx : KinetoObserverContext)
    (now : Int) (tid currentThreadId : Nat) (corrStack : List Nat)
    (h : ∀ s, state? = some s → s.config.state ≠ ProfilerState.KINETO) :
    endCallback state? flopsFn fn ctx now tid currentThreadId corrStack =
      (state?, corrStack) := by
  cases state? with
  | none => rfl
  | some s => simp [endCallback, h s rfl]

/-- Witness for the amended C3 theorem: a legacy-kind state is
active; the end callback leaves the state and the correlation stack
untouched. -/
theorem endCallback_noop_without_kineto_state_witness :
    endCallback (some stateCPU) flopsZero {} {} 0 0 0 [7] = (some stateCPU, [7]) :=
  endCallback_noop_without_kineto_state (some stateCPU) flopsZero {} {} 0 0 0 [7]
    (by intro s hs; cases hs; decide)

/-- C1 counterexample: with a legacy (non-KINETO) profiling state
installed on context 0, disableProfiler fails with the checked usage
error, but the previously installed per-context state is popped by
the failing call rather than left as it was. -/
theorem disable_failing_path_pops_state :
    (disableProfiler 0 mapWithCPUState 9 none).1 = Except.error UsageError.notRunning
    ∧ mapWithCPUState 0 = some stateCPU
    ∧ (disableProfiler 0 mapWithCPUState 9 none).2 0 = none
    ∧ (disableProfiler 0 mapWithCPUState 9 none).2 0 ≠ mapWithCPUState 0 := by
  refine ⟨rfl, by decide, by decide, by decide⟩

/-- On every path, disableProfiler returns the context map with the
slot of the calling context popped and every other slot untouched. -/
theorem disableProfiler_snd (c : Nat) (m : ContextMap) (now : Int)
    (tr : Option (List TraceActivity)) :
    (disableProfiler c m now tr).2 = fun i => if i = c then none else m i := by
  unfold disableProfiler
  cases hm : m c with
  | none => rfl
  | some s =>
    by_cases hs : s.config.state = ProfilerState.KINETO
    · simp only [hs, if_true]
      rcases hfin : KinetoThreadLocalState.finalizeCPUTrace
          { s with markers := s.markers ++ ["__stop_profile"], spanEndTime := now } with _ | s2
      · simp [hfin]
      · rcases tr with _ | t <;> simp [hfin]
    · simp [hs]

/-- C1 (amended): disableProfiler invoked on a context with no prior
successful enableProfiler, or whose active profiling state is not of
KINETO kind, fails with the checked usage error and does not alter
the state of any other context; however the failing call pops the
slot of the calling context, so with no installed state it stays empty and
an installed non-KINETO state is removed rather than left as it
was. -/
theorem disable_without_kineto_session (c : Nat) (m : ContextMap) (now : Int)
    (tr : Option (List TraceActivity))
    (h : ∀ s, m c = some s → s.config.state ≠ ProfilerState.KINETO) :
    (disableProfiler c m now tr).1 = Except.error UsageError.notRunning
    ∧ (∀ i, i ≠ c → (disableProfiler c m now tr).2 i = m i)
    ∧ (disableProfiler c m now tr).2 c = none := by
  have hsnd := disableProfiler_snd c m now tr
  cases hm : m c with
  | none =>
    refine ⟨by simp [disableProfiler, hm], fun i hi => by rw [hsnd]; simp [hi], by
      rw [hsnd]; simp⟩
  | some s =>
    have hks := h s hm
    refine ⟨by simp [disableProfiler, hm, hks], fun i hi => by rw [hsnd]; simp [hi], by
      rw [hsnd]; simp⟩

/-- Witness for the amended C1 theorem: no state installed anywhere;
disabling fails with the usage error, other contexts are untouched
and the calling slot stays empty. -/
theorem disable_without_kineto_session_witness :
    (disableProfiler 0 emptyContexts 3 none).1 = Except.error UsageError.notRunning
    ∧ (disableProfiler 0 emptyContexts 3 none).2 1 = emptyContexts 1
    ∧ (disableProfiler 0 emptyContexts 3 none).2 0 = none := by
  have h := disable_without_kineto_session 0 emptyContexts 3 none
    (fun s hs => Option.noConfusion hs)
  exact ⟨h.1, h.2.1 1 (by decide), h.2.2⟩

/-- C2: enableProfiler fails with a checked usage error when the
config does not select the KINETO state, when the requested activity
set is empty, or when a profiling state is already installed on the
calling context; in every failing case, and in the already-active
case in particular, no new state is published and the slot of every
context (the original session included) is left unchanged. -/
theorem enable_usage_errors (config : ProfilerConfig) (activities : List ActivityType)
    (c : Nat) (m : ContextMap) (now : Int)
    (h : config.state ≠ ProfilerState.KINETO ∨ activities = [] ∨ (m c).isSome = true) :
    (∃ e, (enableProfiler config activities c m now).1 = Except.error e)
    ∧ (enableProfiler config activities c m now).2 = m := by
  by_cases h1 : config.state = ProfilerState.KINETO
  · by_cases h2 : activities.isEmpty
    · exact ⟨⟨UsageError.emptyActivities, by simp [enableProfiler, h1, h2]⟩, by
        simp [enableProfiler, h1, h2]⟩
    · rcases h with h | h | h
      · exact absurd h1 h
      · rw [h] at h2; simp at h2
      · rcases hm : m c with _ | s
        · rw [hm] at h; simp at h
        · exact ⟨⟨UsageError.alreadyEnabled, by simp [enableProfiler, h1, h2, hm]⟩, by
            simp [enableProfiler, h1, h2, hm]⟩
  · exact ⟨⟨UsageError.wrongState, by simp [enableProfiler, h1]⟩, by simp [enableProfiler, h1]⟩

/-- Witness for C2: a state is already installed on context 0;
enabling again fails and the whole context map, the original session
included, is returned unchanged. -/
theorem enable_usage_errors_witness :
    (mapWithCPUState 0).isSome = true
    ∧ (∃ e, (enableProfiler { state := ProfilerState.KINETO } [ActivityType.CPU]
        0 mapWithCPUState 4).1 = Except.error e)
    ∧ (enableProfiler { state := ProfilerState.KINETO } [ActivityType.CPU]
        0 mapWithCPUState 4).2 = mapWithCPUState := by
  have h := enable_usage_errors { state := ProfilerState.KINETO } [ActivityType.CPU]
    0 mapWithCPUState 4 (Or.inr (Or.inr (by decide)))
  exact ⟨by decide, h.1, h.2⟩

/-- C8: for every result with the saved flag still clear (as
constructed), save succeeds, marks the result saved, leaves the
trace content intact and appends exactly one write of that content
to the file system; every second save on the returned result fails
with the checked error and returns the result and the file system
untouched, so the first write is unaffected. -/
theorem save_at_most_once (r : ProfilerResult)
    (fs : List (String × List TraceActivity)) (p : String) (h : r.saved = false) :
    (r.save fs p).1 = Except.ok ()
    ∧ (r.save fs p).2.1.saved = true
    ∧ (r.save fs p).2.1.trace = r.trace
    ∧ (r.save fs p).2.2 = fs ++ [(p, r.trace)]
    ∧ (∀ fs2 p2, (r.save fs p).2.1.save fs2 p2 =
        (Except.error UsageError.alreadySaved, (r.save fs p).2.1, fs2)) := by
  refine ⟨by simp [ProfilerResult.save, h], by simp [ProfilerResult.save, h],
    by simp [ProfilerResult.save, h], by simp [ProfilerResult.save, h],
    fun fs2 p2 => by simp [ProfilerResult.save, h]⟩

/-- Witness for C8: a freshly constructed result saves once, and the
second save fails leaving the first write in place. -/
theorem save_at_most_once_witness :
    (({} : ProfilerResult).saved = false)
    ∧ (({} : ProfilerResult).save [] "trace.json").1 = Except.ok ()
    ∧ ((({} : ProfilerResult).save [] "trace.json").2.1.save [("trace.json", [])] "other.json" =
        (Except.error UsageError.alreadySaved,
         (({} : ProfilerResult).save [] "trace.json").2.1, [("trace.json", [])])) := by
  have h := save_at_most_once ({} : ProfilerResult) [] "trace.json" rfl
  exact ⟨rfl, h.1, h.2.2.2.2 [("trace.json", [])] "other.json"⟩

/-- Closed form of the counter: after n calls the uint64 counter
holds one plus n, reduced mod 2 ^ 64. -/
theorem corrStateAfter_eq (n : Nat) : corrStateAfter n = (1 + n) % 2 ^ 64 := by
  induction n with
  | zero => rfl
  | succ n ih =>
    show (corrStateAfter n + 1) % 2 ^ 64 = (1 + (n + 1)) % 2 ^ 64
    rw [ih]
    omega

/-- Closed form of the value of the zero-based n-th call. -/
theorem corrValue_eq (n : Nat) : corrValue n = (1 + n) % 2 ^ 64 := corrStateAfter_eq n

/-- C4 counterexample: the first call returns 1, but across
sufficiently many successive calls the uint64 counter wraps: the
call with zero-based index 2 ^ 64 - 1 returns 0, issued after the
first call yet smaller, and the call with index 2 ^ 64 repeats the
value 1 of the first call, so the returned values are neither
strictly increasing in issuance order nor pairwise distinct across
arbitrary numbers of calls. -/
theorem correlation_ids_wrap :
    corrValue 0 = 1
    ∧ corrValue (2 ^ 64 - 1) = 0
    ∧ corrValue (2 ^ 64) = corrValue 0
    ∧ ¬ corrValue 0 < corrValue (2 ^ 64 - 1) := by
  have h0 := corrValue_eq 0
  have h1 := corrValue_eq (2 ^ 64 - 1)
  have h2 := corrValue_eq (2 ^ 64)
  refine ⟨by omega, by omega, by omega, by omega⟩

/-- C4 (amended): the generator starts at 1 and every call has the
sole side effect of advancing the process-wide uint64 counter by one
modulo 2 ^ 64, with no error condition; the returned values are
strictly increasing in issuance order as long as the counter has not
wrapped (all indices below 2 ^ 64 - 1), and any two calls fewer than
2 ^ 64 apart return distinct values. -/
theorem correlation_ids_monotone :
    corrValue 0 = 1
    ∧ (∀ n, corrStateAfter (n + 1) = (corrStateAfter n + 1) % 2 ^ 64)
    ∧ (∀ i j, i < j → 1 + j < 2 ^ 64 → corrValue i < corrValue j)
    ∧ (∀ i j, i < j → j - i < 2 ^ 64 → corrValue i ≠ corrValue j) := by
  refine ⟨rfl, fun n => rfl, fun i j hij hj => ?_, fun i j hij hd => ?_⟩
  · have hi := corrValue_eq i
    have hje := corrValue_eq j
    omega
  · have hi := corrValue_eq i
    have hje := corrValue_eq j
    omega

/-- Witness for the amended C4 theorem: the first and third calls
return 1 and 3, in strictly increasing order and distinct. -/
theorem correlation_ids_monotone_witness :
    corrValue 0 < corrValue 2 ∧ corrValue 0 ≠ corrValue 2 :=
  ⟨correlation_ids_monotone.2.2.1 0 2 (by norm_num) (by norm_num),
   correlation_ids_monotone.2.2.2 0 2 (by norm_num) (by norm_num)⟩

/-- The metadata a finalized activity gains from its paired event:
one entry per stored optional field, plus the forward-association
pair when the sequence number is non-negative. -/
theorem enrichActivity_metadata (e : KinetoEvent) (a : TraceActivity) :
    (enrichActivity e a).metadata =
      a.metadata
      ++ (match e.shapes with
          | some sh => [("Input Dims", shapesToStr sh)]
          | none => [])
      ++ (match e.stack with
          | some st => [("Call stack", stacksToStr st)]
          | none => [])
      ++ (match e.dtypes with
          | some d => [("Input type", dtypesToStr d)]
          | none => [])
      ++ (if e.sequenceNr ≥ 0 then
            [("Fwd thread id", toString e.fwdThreadId),
             ("Sequence number", toString e.sequenceNr)]
          else []) := by
  unfold enrichActivity KinetoEvent.hasShapes KinetoEvent.hasStack KinetoEvent.hasTypes
  cases e.shapes <;> cases e.stack <;> cases e.dtypes <;>
    by_cases hseq : e.sequenceNr ≥ 0 <;>
      simp [TraceActivity.addMetadata, hseq, List.append_assoc]

/-- C7: finalizeCPUTrace is defined exactly when the CpuTraceBuffer
activity count equals the captured-event count (the fatal internal
assertion fires otherwise); under that precondition the events are
unchanged and every activity, paired with the event at the same
index, gains exactly the serialized shapes, call stack and input
type metadata entries the event stores, plus the forward thread id
and sequence number entries exactly when the sequence number is
non-negative. -/
theorem finalize_attaches_metadata (s : KinetoThreadLocalState) :
    ((s.finalizeCPUTrace).isSome ↔ s.cpu_trace.length = s.kineto_events.length)
    ∧ (∀ s2, s.finalizeCPUTrace = some s2 →
        s2.kineto_events = s.kineto_events
        ∧ s2.cpu_trace.length = s.cpu_trace.length
        ∧ ∀ i (hi : i < s2.cpu_trace.length) (he : i < s.kineto_events.length)
            (ha : i < s.cpu_trace.length),
            (s2.cpu_trace.get ⟨i, hi⟩).metadata =
              (s.cpu_trace.get ⟨i, ha⟩).metadata
              ++ (match (s.kineto_events.get ⟨i, he⟩).shapes with
                  | some sh => [("Input Dims", shapesToStr sh)]
                  | none => [])
              ++ (match (s.kineto_events.get ⟨i, he⟩).stack with
                  | some st => [("Call stack", stacksToStr st)]
                  | none => [])
              ++ (match (s.kineto_events.get ⟨i, he⟩).dtypes with
                  | some d => [("Input type", dtypesToStr d)]
                  | none => [])
              ++ (if (s.kineto_events.get ⟨i, he⟩).sequenceNr ≥ 0 then
                    [("Fwd thread id", toString (s.kineto_events.get ⟨i, he⟩).fwdThreadId),
                     ("Sequence number", toString (s.kineto_events.get ⟨i, he⟩).sequenceNr)]
                  else [])) := by
  constructor
  · by_cases hlen : s.cpu_trace.length = s.kineto_events.length <;>
      simp [KinetoThreadLocalState.finalizeCPUTrace, hlen]
  · intro s2 h2
    rw [KinetoThreadLocalState.finalizeCPUTrace] at h2
    by_cases hlen : s.cpu_trace.length = s.kineto_events.length
    · rw [if_pos hlen, Option.some_inj] at h2
      subst h2
      refine ⟨rfl, ?_, fun i hi he ha => ?_⟩
      · simp only [List.length_zipWith]
        omega
      · simp only [List.get_eq_getElem]
        rw [List.getElem_zipWith, enrichActivity_metadata]
    · rw [if_neg hlen] at h2
      exact Option.noConfusion h2

/-- A captured event storing shapes, a call stack and a sequence
number, for concrete instances. -/
def eFin : KinetoEvent := { shapes := some [[2]], stack := some ["fn"], sequenceNr := 3 }

/-- A one-operation per-context state with matching buffer counts. -/
def sFin : KinetoThreadLocalState :=
  { config := { state := ProfilerState.KINETO }
    kineto_events := [eFin]
    cpu_trace := [{ name := "op" }] }

/-- The finalized form of sFin. -/
def sFinOut : KinetoThreadLocalState :=
  { sFin with cpu_trace := List.zipWith enrichActivity sFin.kineto_events sFin.cpu_trace }

/-- Witness for C7: on a one-operation state with matching counts,
finalization succeeds and attaches exactly the stored shapes, the
stored stack and the forward-association pairs. -/
theorem finalize_attaches_metadata_witness :
    sFin.finalizeCPUTrace = some sFinOut
    ∧ sFinOut.kineto_events = sFin.kineto_events
    ∧ (sFinOut.cpu_trace.get ⟨0, by decide⟩).metadata =
        [("Input Dims", "[[2]]"), ("Call stack", "fn"),
         ("Fwd thread id", "0"), ("Sequence number", "3")] := by
  have h := (finalize_attaches_metadata sFin).2 sFinOut (by decide)
  refine ⟨by decide, h.1, ?_⟩
  have h3 := h.2.2 0 (by decide) (by decide) (by decide)
  exact h3.trans (by decide)

/-- The intermediate string of stacksToStr is never empty on a
non-empty input list, because every entry is suffixed with the
separator. -/
theorem stacksRc_cons_ne_empty (s : String) (rest : List String) :
    stacksRc (s :: rest) ≠ "" := by
  intro hcontra
  have hlen := congrArg String.length hcontra
  have hsemi : String.length ";" = 1 := rfl
  simp only [stacksRc, String.length_append, String.length_empty] at hlen
  omega

/-- On a non-empty input the checked serialization is defined and
agrees with the executed one. -/
theorem stacksToStrChecked_of_ne_nil (sts : List String) (h : sts ≠ []) :
    stacksToStrChecked sts = some (stacksToStr sts) := by
  cases sts with
  | nil => exact absurd rfl h
  | cons s rest =>
    rw [stacksToStr, stacksToStrChecked, popBack, if_neg (stacksRc_cons_ne_empty s rest)]
    rfl

/-- KinetoEvent::activity never touches the stored stack. -/
theorem activity_stack (e : KinetoEvent) (a : TraceActivity) :
    (e.activity a).stack = e.stack := by
  cases hl : a.linkedCorrelation <;>
    by_cases hc : a.activityType = LKActivityType.CPU_OP <;>
      simp [KinetoEvent.activity, hc, hl]

/-- C10: the trailing-separator removal in stacksToStr is undefined
on the empty input list (the unguarded pop_back), and is defined,
agreeing with the executed behaviour, on every non-empty list; the
error branch is unreachable from its only call site because
reportClientActivity stores a stack on an event only when the
captured stack list is non-empty, and finalizeCPUTrace serializes a
stack only for events that store one, so every reachable invocation
has a non-empty input. -/
theorem stack_serialization_safe :
    stacksToStrChecked [] = none
    ∧ (∀ sts : List String, sts ≠ [] → stacksToStrChecked sts = some (stacksToStr sts))
    ∧ (∀ (s : KinetoThreadLocalState) flopsFn fn ctx? now tid,
        ∀ e ∈ (s.reportClientActivity flopsFn fn ctx? now tid).kineto_events,
          e ∈ s.kineto_events ∨ ∀ l, e.stack = some l → l ≠ [])
    ∧ (∀ e : KinetoEvent, (∀ l, e.stack = some l → l ≠ []) → e.hasStack = true →
        ∀ l, e.stack = some l → stacksToStrChecked l = some (stacksToStr l)) := by
  refine ⟨rfl, stacksToStrChecked_of_ne_nil, ?_, ?_⟩
  · intro s flopsFn fn ctx? now tid e he
    cases ctx? with
    | none => exact Or.inl he
    | some ctx =>
      simp only [KinetoThreadLocalState.reportClientActivity, List.mem_append,
        List.mem_singleton] at he
      rcases he with he | he
      · exact Or.inl he
      · refine Or.inr ?_
        subst he
        intro l hl
        simp only [activity_stack] at hl
        rcases hsk : ctx.stack with _ | st
        · rw [hsk] at hl
          simp at hl
        · rw [hsk] at hl
          by_cases hst : st.isEmpty
          · simp [hst] at hl
          · simp only [hst, Bool.not_false, if_pos, Option.some_inj] at hl
            subst hl
            simpa using hst
  · intro e hwf _ l hl
    exact stacksToStrChecked_of_ne_nil l (hwf l hl)

/-- A captured event storing a non-empty stack, as
reportClientActivity produces. -/
def eWithStack : KinetoEvent := { stack := some ["main"] }

/-- Witness for C10: an event with a stored (hence non-empty) stack;
the checked serialization is defined on it and agrees with the
executed one. -/
theorem stack_serialization_safe_witness :
    (∀ l, eWithStack.stack = some l → l ≠ [])
    ∧ eWithStack.hasStack = true
    ∧ stacksToStrChecked ["main"] = some (stacksToStr ["main"]) := by
  have hwf : ∀ l, eWithStack.stack = some l → l ≠ [] := by
    intro l hlx
    simp only [eWithStack] at hlx
    injection hlx with h2
    rw [← h2]
    decide
  refine ⟨hwf, by decide, ?_⟩
  exact stack_serialization_safe.2.2.2 eWithStack hwf (by decide) ["main"] (by decide)

end Kineto
